import Mathlib

unseal Rat.ofScientific Rat.mul Rat.inv Rat.add Rat.sub

/-!
Shallow embedding of the Integrated Risk Correlation & Forecasting Engine of the
Nirogya repository, and proofs about it.

Sources embedded:
- src/data/disease_prediction_service.py      (DiseasePredictor.predict_disease_type)
- src/data/disease_water_correlation.py       (IntegratedHealthAnalyzer)

Python floats are modelled as rationals; Python ints as integers. Python round
half-even ties are modelled exactly on rationals; Python int() truncation toward
zero is `pyInt`. String formatting with a fixed number of decimals is modelled
by an explicit renderer whose exact digits are never load-bearing: the code only
ever substring-matches the constant words of these strings.
-/

namespace Nirogya

/-- Conditional additive bonus, the shallow embedding of the pythonic pattern
`score = base; if cond: score += v`. -/
def bonus (c : Prop) [Decidable c] (v : ℚ) : ℚ := if c then v else 0

/-- Python `int()` applied to a float: truncation toward zero. -/
def pyInt (q : ℚ) : ℤ := if 0 ≤ q then ⌊q⌋ else ⌈q⌉

/-- Round to the nearest integer, ties to even, as Python `round` does. -/
def roundHalfEven (q : ℚ) : ℤ :=
  let f := ⌊q⌋
  if q - f < 1/2 then f
  else if 1/2 < q - f then f + 1
  else if Even f then f else f + 1

/-- Python `round(q, 1)`. -/
def pyRound1 (q : ℚ) : ℚ := (roundHalfEven (q * 10) : ℚ) / 10

/-- Python `round(q, 2)`. -/
def pyRound2 (q : ℚ) : ℚ := (roundHalfEven (q * 100) : ℚ) / 100

/-- Whether the first list is an initial segment of the second. -/
def charsLe : List Char → List Char → Bool
  | [], _ => true
  | _ :: _, [] => false
  | a :: as, b :: bs => a == b && charsLe as bs

/-- Whether `sub` occurs as a contiguous sublist. -/
def charsSub (sub : List Char) : List Char → Bool
  | [] => sub.isEmpty
  | b :: bs => charsLe sub (b :: bs) || charsSub sub bs

/-- Python's substring test `sub in s`. -/
def hasSub (s : String) (sub : String) : Bool := charsSub sub.data s.data

/-- Render a rational with one decimal digit, the embedding of Python's
`{value:.1f}` formatting (sign of a negative zero ignored; the digits of these
strings are never inspected by the embedded code, only their constant words). -/
def fmt1 (q : ℚ) : String :=
  let r := roundHalfEven (q * 10)
  if r < 0 then "-" ++ toString ((-r).toNat / 10) ++ "." ++ toString ((-r).toNat % 10)
  else toString (r.toNat / 10) ++ "." ++ toString (r.toNat % 10)

/-! ### disease_prediction_service.py, `DiseasePredictor.predict_disease_type`

Inputs are the dict entries the function reads: `No_of_Deaths` (default 0),
`Start_of_Outbreak_Month` (default 7), `Start_of_Outbreak_Season` (default 2),
`Cases_Lag_1` (default 0); `Northeast_State` is read but unused. Defaults are
applied by the callers we embed. The static `disease_info` table attached to
the result is omitted (no claim touches it). -/

/-- `mortality_rate = deaths / max(prev_cases, 1) if prev_cases > 0 else deaths / 10`. -/
def mortalityRate (deaths prevCases : ℚ) : ℚ :=
  if prevCases > 0 then deaths / max prevCases 1 else deaths / 10

/-- The seven disease scores, in the dict's insertion order, each a fixed base
plus conditional bonuses, exactly as in `predict_disease_type`. -/
def diseaseScores (deaths : ℚ) (month season : ℤ) (prevCases : ℚ) :
    List (String × ℚ) :=
  [("Acute Diarrheal Disease",
      0.3 + bonus (season = 2) 0.2 + bonus (month ∈ ([6, 7, 8, 9] : List ℤ)) 0.15
        + bonus (deaths < 5) 0.1),
   ("Cholera",
      0.1 + bonus (mortalityRate deaths prevCases > 0.1) 0.3 + bonus (season = 2) 0.25
        + bonus (month ∈ ([7, 8, 9] : List ℤ)) 0.2 + bonus (deaths > 5) 0.15),
   ("Typhoid",
      0.15 + bonus (mortalityRate deaths prevCases > 0.05 ∧ mortalityRate deaths prevCases < 0.15) 0.2
        + bonus (deaths ≥ 3 ∧ deaths ≤ 8) 0.15 + bonus (season ∈ ([1, 3] : List ℤ)) 0.1),
   ("Dysentery",
      0.12 + bonus (season = 2) 0.15 + bonus (deaths < 8) 0.1
        + bonus (month ∈ ([6, 7, 8] : List ℤ)) 0.1),
   ("Hepatitis A",
      0.08 + bonus (mortalityRate deaths prevCases < 0.05) 0.2 + bonus (deaths ≤ 3) 0.15
        + bonus (season = 4) 0.1),
   ("Food Poisoning",
      0.1 + bonus (deaths ≤ 2) 0.2 + bonus (mortalityRate deaths prevCases < 0.03) 0.15
        + bonus (month ∈ ([4, 5, 10, 11] : List ℤ)) 0.1),
   ("Gastroenteritis",
      0.15 + bonus (deaths ≤ 4) 0.15 + bonus (season ∈ ([1, 2] : List ℤ)) 0.1)]

/-- `total_score = sum(disease_scores.values())`. -/
def totalScore (deaths : ℚ) (month season : ℤ) (prevCases : ℚ) : ℚ :=
  ((diseaseScores deaths month season prevCases).map Prod.snd).sum

/-- `disease_probabilities = {d: score / total_score * 100 for ...}` (unrounded). -/
def diseaseProbabilities (deaths : ℚ) (month season : ℤ) (prevCases : ℚ) :
    List (String × ℚ) :=
  (diseaseScores deaths month season prevCases).map
    (fun p => (p.1, p.2 / totalScore deaths month season prevCases * 100))

/-- Python `max(keys, key=...)` over a dict in insertion order: the first entry
with the (strictly) greatest value wins exact ties. -/
def argmaxFirst : List (String × ℚ) → String × ℚ
  | [] => ("", 0)
  | p :: ps => ps.foldl (fun best q => if q.2 > best.2 then q else best) p

/-- Result dict of `predict_disease_type` (the static `disease_info` map omitted). -/
structure DiseaseTypeResult where
  predicted_disease : String
  probability : ℚ
  confidence : String
  all_probabilities : List (String × ℚ)
  mortality_rate : ℚ
  deriving DecidableEq

/-- `DiseasePredictor.predict_disease_type`, lines 257-417 of
disease_prediction_service.py. -/
def predictDiseaseType (deaths : ℚ) (month season : ℤ) (prevCases : ℚ) :
    DiseaseTypeResult :=
  let probs := diseaseProbabilities deaths month season prevCases
  let top := argmaxFirst probs
  { predicted_disease := top.1
    probability := pyRound1 top.2
    confidence := if top.2 > 40 then "High" else if top.2 > 25 then "Medium" else "Low"
    all_probabilities := probs.map (fun p => (p.1, pyRound1 p.2))
    mortality_rate := pyRound2 (mortalityRate deaths prevCases * 100) }

/-! ### disease_water_correlation.py, `IntegratedHealthAnalyzer`

The water-parameter dict is modelled with all seven keys present, as every
caller in the repository constructs it (interactive, quick and test modes all
build the full dict); `dict.get` defaults of `calculate_wqi` therefore read the
stored values. The outbreak dict is modelled with optional entries, because
`analyze_integrated_scenario` and the forecaster read it with `.get` defaults
(lines 246-248, 429-431): `No_of_Cases` defaults to 0, `Northeast_State` to 1,
`Start_of_Outbreak_Month` to 7. -/

/-- A water-quality sample: the seven parameters of the `water_params` dict. -/
structure WaterParams where
  ph : ℚ
  dissolved_oxygen : ℚ
  bod : ℚ
  nitrate_n : ℚ
  fecal_coliform : ℚ
  total_coliform : ℚ
  temperature : ℚ
  deriving DecidableEq

/-- The outbreak dict consumed by `analyze_integrated_scenario`; `none` models
a missing key, read back through the source's `.get` defaults. -/
structure OutbreakData where
  no_of_cases : Option ℤ
  northeast_state : Option ℤ
  start_of_outbreak_month : Option ℤ
  deriving DecidableEq

/-- pH sub-score of `calculate_wqi`: 0 inside [6.5, 8.5], else `min(|ph-7|*15, 100)`. -/
def ph_score (w : WaterParams) : ℚ :=
  if 6.5 ≤ w.ph ∧ w.ph ≤ 8.5 then 0 else min (|w.ph - 7.0| * 15) 100

/-- Dissolved-oxygen sub-score: 0 if ≥ 5, else `(5-do)*20` (capped at the sum). -/
def do_score (w : WaterParams) : ℚ :=
  if w.dissolved_oxygen ≥ 5 then 0 else (5 - w.dissolved_oxygen) * 20

/-- BOD sub-score: 0 if ≤ 3, else `(bod-3)*10` (capped at the sum). -/
def bod_score (w : WaterParams) : ℚ :=
  if w.bod ≤ 3 then 0 else (w.bod - 3) * 10

/-- Nitrate sub-score: `nitrate*2` if ≤ 10, else `20+(nitrate-10)*8`. -/
def nitrate_score (w : WaterParams) : ℚ :=
  if w.nitrate_n ≤ 10 then w.nitrate_n * 2 else 20 + (w.nitrate_n - 10) * 8

/-- Fecal-coliform sub-score: `fc*0.5` if ≤ 50, else `25+(fc-50)*0.1`. -/
def fc_score (w : WaterParams) : ℚ :=
  if w.fecal_coliform ≤ 50 then w.fecal_coliform * 0.5
  else 25 + (w.fecal_coliform - 50) * 0.1

/-- Total-coliform sub-score: `tc*0.05` if ≤ 500, else `25+(tc-500)*0.01`. -/
def tc_score (w : WaterParams) : ℚ :=
  if w.total_coliform ≤ 500 then w.total_coliform * 0.05
  else 25 + (w.total_coliform - 500) * 0.01

/-- `IntegratedHealthAnalyzer.calculate_wqi`: the weighted sum of the six
sub-scores, each capped at 100 at the point of accumulation, with weights
ph .15, do .20, bod .15, nitrate .15, fecal .20, total .15. -/
def calculate_wqi (w : WaterParams) : ℚ :=
  0.15 * ph_score w + 0.20 * min (do_score w) 100 + 0.15 * min (bod_score w) 100
    + 0.15 * min (nitrate_score w) 100 + 0.20 * min (fc_score w) 100
    + 0.15 * min (tc_score w) 100

/-- The `quality_category` ladder of `assess_water_quality_risk`. -/
def quality_category_of (wqi : ℚ) : String :=
  if wqi ≤ 25 then "Excellent"
  else if wqi ≤ 50 then "Good"
  else if wqi ≤ 75 then "Moderate"
  else if wqi ≤ 100 then "Poor"
  else "Very Poor"

/-- The `quality_risk` ladder of `assess_water_quality_risk` (computed in the
same if-chain as the category in the source). -/
def quality_risk_of (wqi : ℚ) : String :=
  if wqi ≤ 25 then "Low"
  else if wqi ≤ 50 then "Low"
  else if wqi ≤ 75 then "Medium"
  else if wqi ≤ 100 then "High"
  else "Very High"

/-- A list holding `s` when `c` holds: one pass of the pythonic
`if cond: acc.append(s)`. -/
def optItem (c : Prop) [Decidable c] (s : String) : List String :=
  if c then [s] else []

/-- The `risk_factors` strings of `assess_water_quality_risk`, produced by the
parameter loop in the dict's construction order (ph, dissolved_oxygen, bod,
nitrate_n, fecal_coliform, total_coliform, temperature). -/
def risk_factors_of (w : WaterParams) : List String :=
  optItem (w.ph < 6.5 ∨ w.ph > 8.5) ("pH out of range (" ++ fmt1 w.ph ++ ")")
    ++ optItem (w.dissolved_oxygen < 5)
        ("Low dissolved oxygen (" ++ fmt1 w.dissolved_oxygen ++ " mg/L)")
    ++ optItem (w.bod > 3) ("High bod (" ++ fmt1 w.bod ++ ")")
    ++ optItem (w.nitrate_n > 10) ("High nitrate n (" ++ fmt1 w.nitrate_n ++ ")")
    ++ optItem (w.fecal_coliform > 50)
        ("High fecal coliform (" ++ fmt1 w.fecal_coliform ++ ")")
    ++ optItem (w.total_coliform > 500)
        ("High total coliform (" ++ fmt1 w.total_coliform ++ ")")
    ++ optItem (w.temperature < 15 ∨ w.temperature > 30)
        ("Temperature stress (" ++ fmt1 w.temperature ++ "°C)")

/-- The `critical_violations` tags of `assess_water_quality_risk`, in the same
loop order; the coliform and bod/nitrate criticals come from the standards
table (bod 10, nitrate 20, fecal 200, total 1000). -/
def critical_violations_of (w : WaterParams) : List String :=
  optItem ((w.ph < 6.5 ∨ w.ph > 8.5) ∧ (w.ph < 6.0 ∨ w.ph > 9.0)) "extreme_ph"
    ++ optItem (w.dissolved_oxygen < 5 ∧ w.dissolved_oxygen < 2.0) "oxygen_depletion"
    ++ optItem (w.bod > 3 ∧ w.bod > 10) "critical_bod"
    ++ optItem (w.nitrate_n > 10 ∧ w.nitrate_n > 20) "critical_nitrate_n"
    ++ optItem (w.fecal_coliform > 50 ∧ w.fecal_coliform > 200) "critical_fecal_coliform"
    ++ optItem (w.total_coliform > 500 ∧ w.total_coliform > 1000) "critical_total_coliform"

/-- Result dict of `assess_water_quality_risk`. -/
structure WaterAssessment where
  wqi : ℚ
  quality_category : String
  quality_risk : String
  risk_factors : List String
  critical_violations : List String
  deriving DecidableEq

/-- `IntegratedHealthAnalyzer.assess_water_quality_risk`, lines 169-230. -/
def assess_water_quality_risk (w : WaterParams) : WaterAssessment :=
  { wqi := calculate_wqi w
    quality_category := quality_category_of (calculate_wqi w)
    quality_risk := quality_risk_of (calculate_wqi w)
    risk_factors := risk_factors_of w
    critical_violations := critical_violations_of w }

/-- The prediction dict shared by `predict_disease_from_outbreak` and
`_rule_based_disease_prediction`. -/
structure DiseasePrediction where
  predicted_cases : ℚ
  confidence : String
  most_likely_disease : String
  disease_probability : ℚ
  method : String
  deriving DecidableEq

/-- `_rule_based_disease_prediction`, lines 427-483: a 3-tier classifier on
case count within three month bands (`Northeast_State` is read but unused). -/
def rule_based_disease_prediction (cases month : ℤ) : DiseasePrediction :=
  let r : String × ℚ × String :=
    if month ∈ ([6, 7, 8, 9] : List ℤ) then
      if cases > 200 then ("Cholera", 85, "High")
      else if cases > 100 then ("Acute Diarrheal Disease", 75, "Medium")
      else if cases > 50 then ("Typhoid", 65, "Medium")
      else ("Gastroenteritis", 55, "Low")
    else if month ∈ ([4, 5, 10, 11] : List ℤ) then
      if cases > 150 then ("Typhoid", 80, "High")
      else if cases > 75 then ("Hepatitis A", 70, "Medium")
      else ("Food Poisoning", 60, "Medium")
    else
      if cases > 100 then ("Viral Gastroenteritis", 75, "Medium")
      else ("Food Poisoning", 65, "Medium")
  { predicted_cases := (cases : ℚ)
    confidence := r.2.2
    most_likely_disease := r.1
    disease_probability := r.2.1
    method := "Rule_Based" }

/-- `predict_disease_from_outbreak`, lines 359-392, in the repository's shipped
state: `saved_models/` holds no `gradient_boosting_model_*.pkl`, so
`DiseasePredictor.model` is `None`, `predict_single` returns an error dict
(`predicted_cases` read back as 0, `confidence` as "Medium"), and the
`disease_prediction.get('most_likely', 'Unknown')` lookup misses — the result
dict of `predict_disease_type` has no such key — so the disease is always
"Unknown" while `disease_probability` reads the real `probability` entry.
The ml input's deaths are `max(1, int(cases * 0.03))`; its season and lag keys
are absent, so `predict_disease_type` uses its defaults 2 and 0. -/
def predict_disease_from_outbreak (o : OutbreakData) : DiseasePrediction :=
  let actual_cases : ℤ := o.no_of_cases.getD 0
  let estimated_deaths : ℤ := max 1 (pyInt ((actual_cases : ℚ) * 0.03))
  let dtype := predictDiseaseType (estimated_deaths : ℚ)
    (o.start_of_outbreak_month.getD 7) 2 0
  { predicted_cases := max (actual_cases : ℚ) 0
    confidence := "Medium"
    most_likely_disease := "Unknown"
    disease_probability := dtype.probability
    method := "ML_Model_Scaled" }

/-- The `critical_parameters` entry of the `disease_water_correlations` table
(lines 64-95); an unknown disease yields the empty default. -/
def criticalParameters (disease : String) : List String :=
  if disease = "Cholera" then ["fecal_coliform", "total_coliform"]
  else if disease = "Typhoid" then ["fecal_coliform", "nitrate_n"]
  else if disease = "Acute Diarrheal Disease" then ["fecal_coliform", "total_coliform", "bod"]
  else if disease = "Hepatitis A" then ["fecal_coliform", "total_coliform"]
  else if disease = "Dysentery" then ["fecal_coliform", "bod"]
  else if disease = "Food Poisoning" then ["fecal_coliform", "temperature"]
  else []

/-- The keys of the `disease_water_correlations` table, in insertion order. -/
def knownDiseases : List String :=
  ["Cholera", "Typhoid", "Acute Diarrheal Disease", "Hepatitis A", "Dysentery",
   "Food Poisoning"]

/-- `param in water_params` plus the value lookup, for the full seven-key dict. -/
def waterValue (w : WaterParams) (param : String) : Option ℚ :=
  if param = "ph" then some w.ph
  else if param = "dissolved_oxygen" then some w.dissolved_oxygen
  else if param = "bod" then some w.bod
  else if param = "nitrate_n" then some w.nitrate_n
  else if param = "fecal_coliform" then some w.fecal_coliform
  else if param = "total_coliform" then some w.total_coliform
  else if param = "temperature" then some w.temperature
  else none

/-- One pass of the critical-parameter loop of `correlate_disease_water_quality`
(lines 509-525): the score increment and the factor string it appends. -/
def critParamScore (w : WaterParams) (param : String) : ℚ × List String :=
  match waterValue w param with
  | none => (0, [])
  | some value =>
    if param = "fecal_coliform" ∧ value > 50 then (25, ["High fecal contamination"])
    else if param = "total_coliform" ∧ value > 500 then (20, ["High bacterial contamination"])
    else if param = "nitrate_n" ∧ value > 10 then (15, ["Elevated nitrate levels"])
    else if param = "bod" ∧ value > 5 then (15, ["High organic pollution"])
    else (0, [])

/-- The whole critical-parameter loop: accumulated score and factor strings. -/
def critParamsResult (w : WaterParams) (params : List String) : ℚ × List String :=
  params.foldl (fun acc p =>
    (acc.1 + (critParamScore w p).1, acc.2 ++ (critParamScore w p).2)) (0, [])

/-- One pass of the critical-violation loop (lines 528-537): substring-matched
score increment and factor string. -/
def violationScore (v : String) : ℚ × List String :=
  if hasSub v "fecal" then (20, ["Critical bacterial contamination"])
  else if hasSub v "oxygen" then (15, ["Oxygen depletion stress"])
  else if hasSub v "ph" then (10, ["Extreme pH conditions"])
  else (0, [])

/-- The whole critical-violation loop. -/
def violationsResult (violations : List String) : ℚ × List String :=
  violations.foldl (fun acc v =>
    (acc.1 + (violationScore v).1, acc.2 ++ (violationScore v).2)) (0, [])

/-- Result dict of `correlate_disease_water_quality`. -/
structure CorrelationAnalysis where
  correlation_score : ℚ
  correlation_strength : String
  combined_risk_level : String
  correlation_factors : List String
  disease_water_match : Bool
  critical_intervention_needed : Bool
  deriving DecidableEq

/-- `IntegratedHealthAnalyzer.correlate_disease_water_quality`, lines 485-560:
+30 when quality risk is High/Very High, the critical-parameter bonuses, the
violation bonuses; strength and level banded on the raw score, the stored
score clamped to 100. -/
def correlate_disease_water_quality (dp : DiseasePrediction)
    (wa : WaterAssessment) (w : WaterParams) : CorrelationAnalysis :=
  let qualityBonus : ℚ :=
    bonus (wa.quality_risk = "High" ∨ wa.quality_risk = "Very High") 30
  let qualityFactors : List String :=
    optItem (wa.quality_risk = "High" ∨ wa.quality_risk = "Very High")
      ("Poor water quality (WQI: " ++ fmt1 wa.wqi ++ ")")
  let params := critParamsResult w (criticalParameters dp.most_likely_disease)
  let viols := violationsResult wa.critical_violations
  let score := qualityBonus + params.1 + viols.1
  let strengthLevel : String × String :=
    if score ≥ 60 then ("Very Strong", "Critical")
    else if score ≥ 40 then ("Strong", "High")
    else if score ≥ 20 then ("Moderate", "Medium")
    else ("Weak", "Low")
  { correlation_score := min score 100
    correlation_strength := strengthLevel.1
    combined_risk_level := strengthLevel.2
    correlation_factors := qualityFactors ++ params.2 ++ viols.2
    disease_water_match := decide (dp.most_likely_disease ∈ knownDiseases)
    critical_intervention_needed := decide (score ≥ 60) }

/-- The `seasonal_multipliers` dict of `predict_future_outbreak_trend`
(lines 253-266), keyed by the 12 calendar months. -/
def seasonalMultipliers (m : ℤ) : Option ℚ :=
  if m = 1 then some 0.6 else if m = 2 then some 0.6
  else if m = 3 then some 0.7 else if m = 4 then some 0.8
  else if m = 5 then some 0.9 else if m = 6 then some 1.4
  else if m = 7 then some 1.6 else if m = 8 then some 1.5
  else if m = 9 then some 1.3 else if m = 10 then some 1.0
  else if m = 11 then some 0.8 else if m = 12 then some 0.7
  else none

/-- `future_month = ((current_month + month_offset - 1) % 12) + 1`; Lean's `%`
on ℤ is `Int.emod`, which agrees with Python's `%` for the positive modulus 12. -/
def futureMonth (current_month : ℤ) (month_offset : ℕ) : ℤ :=
  ((current_month + month_offset - 1) % 12) + 1

/-- The water-quality impact multiplier (lines 269-276): 1.5 if WQI > 50,
1.2 if WQI > 30, else 0.8. -/
def water_risk_multiplier (wqi : ℚ) : ℚ :=
  if wqi > 50 then 1.5 else if wqi > 30 then 1.2 else 0.8

/-- `_get_future_recommendations`, lines 321-357: season-band strings plus
risk-band strings, truncated to the first five. -/
def future_recommendations (risk_level : String) (month : ℤ) : List String :=
  let seasonal : List String :=
    if month ∈ ([6, 7, 8, 9] : List ℤ) then
      ["🌧️ Prepare for monsoon-related disease surge",
       "🚰 Ensure water treatment capacity for increased demand",
       "🏥 Stock additional medical supplies for waterborne diseases"]
    else if month ∈ ([4, 5] : List ℤ) then
      ["🔧 Conduct preventive maintenance on water systems",
       "📋 Train health workers for upcoming monsoon season",
       "🚨 Establish early warning systems"]
    else
      ["📊 Conduct routine surveillance",
       "🔍 Monitor water quality trends"]
  let riskBased : List String :=
    if risk_level = "Critical" then
      ["🚨 Prepare emergency response protocols",
       "🏥 Ensure hospital capacity expansion",
       "📢 Launch preemptive public health campaigns"]
    else if risk_level = "High" then
      ["⚠️ Increase surveillance frequency",
       "💊 Ensure adequate medicine stockpiles"]
    else []
  (seasonal ++ riskBased).take 5

/-- One `Month_k` entry of the `future_predictions` dict. -/
structure ForecastPoint where
  month : ℤ
  predicted_cases : ℤ
  seasonal_factor : ℚ
  water_impact : ℚ
  most_likely_disease : String
  risk_level : String
  recommendations : List String
  deriving DecidableEq

/-- One iteration of the forecast loop (lines 278-317): decayed base case
count, seasonal multiplier of the projected month, water multiplier; the
stored case count is `int()`-truncated, the risk bands are taken on the
untruncated value, and the simplified rule classifier labels the point. -/
def forecastPoint (current_month : ℤ) (current_cases : ℤ) (wmult : ℚ)
    (month_offset : ℕ) : ForecastPoint :=
  let fm := futureMonth current_month month_offset
  let base_trend : ℚ := (current_cases : ℚ) * 0.85 ^ month_offset
  let seasonal_cases := base_trend * ((seasonalMultipliers fm).getD 0)
  let predicted_cases := seasonal_cases * wmult
  let dp := rule_based_disease_prediction (pyInt predicted_cases) fm
  let risk_level : String :=
    if predicted_cases > 200 then "Critical"
    else if predicted_cases > 100 then "High"
    else if predicted_cases > 50 then "Medium"
    else "Low"
  { month := fm
    predicted_cases := pyInt predicted_cases
    seasonal_factor := (seasonalMultipliers fm).getD 0
    water_impact := wmult
    most_likely_disease := dp.most_likely_disease
    risk_level := risk_level
    recommendations := future_recommendations risk_level fm }

/-- `IntegratedHealthAnalyzer.predict_future_outbreak_trend`, lines 232-319:
one `ForecastPoint` per offset 1..months_ahead, in order. The dict lookup
`seasonal_multipliers[future_month]` is modelled with a default of 0 that is
never taken (the projected month always lies in 1..12, proved below). -/
def predict_future_outbreak_trend (o : OutbreakData) (w : WaterParams)
    (months_ahead : ℕ) : List ForecastPoint :=
  let current_month := o.start_of_outbreak_month.getD 7
  let current_cases := o.no_of_cases.getD 0
  let wmult := water_risk_multiplier (calculate_wqi w)
  (List.range months_ahead).map (fun i => forecastPoint current_month current_cases wmult (i + 1))

/-- The remediation bullet(s) appended for one `risk_factor` string by the
parameter-specific fixes loop of `generate_integrated_recommendations`
(lines 603-614): a case-sensitive substring match against the fixed table. -/
def remediationBullets (factor : String) : List String :=
  if hasSub factor "pH" then ["🔧 Install pH correction system (lime/acid dosing)"]
  else if hasSub factor "oxygen" then ["💨 Install aeration system to increase dissolved oxygen"]
  else if hasSub factor "coliform" then ["🦠 Implement UV disinfection or chlorination"]
  else if hasSub factor "nitrate" then ["🌱 Control agricultural runoff and fertilizer use"]
  else if hasSub factor "BOD" then ["🏭 Treat organic waste before discharge"]
  else []

/-- The critical-intervention bullets (lines 575-578). -/
def urgent_recommendations (ca : CorrelationAnalysis) : List String :=
  if ca.critical_intervention_needed then
    ["🚨 URGENT: Implement immediate water treatment and health interventions",
     "📞 Alert district health authorities and water board immediately",
     "🔒 Consider temporary water source restrictions until treatment"]
  else []

/-- The disease-specific bullets (lines 580-592). -/
def disease_recommendations (disease : String) : List String :=
  if disease = "Cholera" then
    ["💧 Immediate chlorination of water sources",
     "🏥 Prepare ORS and IV fluid supplies",
     "🔬 Test all water sources for Vibrio cholerae"]
  else if disease = "Typhoid" then
    ["💉 Consider mass vaccination in high-risk areas",
     "🧪 Test water for Salmonella typhi contamination",
     "🏥 Prepare antibiotic treatment protocols"]
  else if disease ∈ ["Acute Diarrheal Disease", "Dysentery"] then
    ["🚿 Improve sanitation and hygiene facilities",
     "💊 Ensure zinc and ORS availability",
     "📚 Community education on handwashing"]
  else []

/-- The WQI-band bullets (lines 594-601). -/
def wqi_recommendations (wqi : ℚ) : List String :=
  if wqi > 75 then
    ["⚗️ Implement comprehensive water treatment system",
     "🔍 Conduct detailed water source investigation"]
  else if wqi > 50 then
    ["🛠️ Upgrade existing water treatment facilities",
     "📊 Increase water quality monitoring frequency"]
  else []

/-- The standing prevention bullets (lines 616-619). -/
def prevention_recommendations : List String :=
  ["📈 Establish integrated disease-water quality surveillance",
   "👥 Train community health workers on water-disease connections",
   "📱 Set up early warning system for water quality alerts"]

/-- The monitoring-cadence bullets (lines 621-627). -/
def monitoring_recommendations (strength : String) : List String :=
  if strength ∈ ["Strong", "Very Strong"] then
    ["⏰ Daily water quality monitoring during outbreak",
     "📊 Weekly disease surveillance reports"]
  else
    ["📅 Weekly water quality monitoring",
     "📈 Monthly disease trend analysis"]

/-- `IntegratedHealthAnalyzer.generate_integrated_recommendations`, lines
562-629: urgent bullets, disease-specific bullets, WQI-band bullets, the
per-risk-factor remediation bullets, standing prevention bullets, and the
monitoring-cadence bullets, appended in that order (the source's
`water_params` argument is never read in the body and is omitted here). -/
def generate_integrated_recommendations (dp : DiseasePrediction)
    (wa : WaterAssessment) (ca : CorrelationAnalysis) : List String :=
  urgent_recommendations ca
  ++ disease_recommendations dp.most_likely_disease
  ++ wqi_recommendations wa.wqi
  ++ (wa.risk_factors.map remediationBullets).flatten
  ++ prevention_recommendations
  ++ monitoring_recommendations ca.correlation_strength

/-- The piecewise case-count scaling of the disease risk score (lines 664-672). -/
def disease_risk_base (cases : ℚ) : ℚ :=
  if cases ≤ 10 then cases * 2
  else if cases ≤ 50 then 20 + (cases - 10) * 1.5
  else if cases ≤ 200 then 80 + (cases - 50) * 0.13
  else 100

/-- The disease-severity multiplier (lines 674-682). -/
def severity_multiplier (disease : String) : ℚ :=
  if disease ∈ ["Cholera", "Typhoid"] then 1.3
  else if disease ∈ ["Hepatitis A", "Dysentery"] then 1.2
  else if disease ∈ ["Acute Diarrheal Disease"] then 1.1
  else 1.0

/-- `combined_risk_score = disease_risk_score*0.4 + water_risk_score*0.3 +
correlation_score*0.3` (lines 690-691). -/
def combined_risk_formula (d w c : ℚ) : ℚ := d * 0.4 + w * 0.3 + c * 0.3

/-- The alert banding on the combined risk score (lines 693-700). -/
def alert_level_of (s : ℚ) : String :=
  if s ≥ 80 then "🔴 CRITICAL ALERT"
  else if s ≥ 60 then "🟠 HIGH ALERT"
  else if s ≥ 40 then "🟡 MEDIUM ALERT"
  else "🟢 LOW ALERT"

/-- The `risk_scores` sub-dict of the final result. -/
structure RiskScores where
  disease_risk : ℚ
  water_risk : ℚ
  correlation_risk : ℚ
  combined_risk : ℚ
  deriving DecidableEq

/-- The full result dict of `analyze_integrated_scenario`. -/
structure RiskAssessmentResult where
  disease_prediction : DiseasePrediction
  water_assessment : WaterAssessment
  correlation_analysis : CorrelationAnalysis
  future_predictions : List ForecastPoint
  recommendations : List String
  risk_scores : RiskScores
  alert_level : String
  analysis_timestamp : String
  deriving DecidableEq

/-- `IntegratedHealthAnalyzer.analyze_integrated_scenario`, lines 631-716, with
`include_future=True` (the default every caller uses). `now` is the already
formatted reading of the wall clock that line 715 stores through
`datetime.now().strftime(...)`; it is the only clock input of the function. -/
def analyze_integrated_scenario (o : OutbreakData) (w : WaterParams)
    (now : String) : RiskAssessmentResult :=
  let dp := predict_disease_from_outbreak o
  let wa := assess_water_quality_risk w
  let ca := correlate_disease_water_quality dp wa w
  let fut := predict_future_outbreak_trend o w 3
  let recs := generate_integrated_recommendations dp wa ca
  let disease_risk_score :=
    min (disease_risk_base dp.predicted_cases * severity_multiplier dp.most_likely_disease) 100
  let combined := combined_risk_formula disease_risk_score wa.wqi ca.correlation_score
  { disease_prediction := dp
    water_assessment := wa
    correlation_analysis := ca
    future_predictions := fut
    recommendations := recs
    risk_scores :=
      { disease_risk := disease_risk_score
        water_risk := wa.wqi
        correlation_risk := ca.correlation_score
        combined_risk := combined }
    alert_level := alert_level_of combined
    analysis_timestamp := now }

/-- The result with its clock-derived field erased. -/
def stripTimestamp (r : RiskAssessmentResult) : RiskAssessmentResult :=
  { r with analysis_timestamp := "" }

/-- The disinfection remediation bullet of the fixed table. -/
def disinfectionBullet : String := "🦠 Implement UV disinfection or chlorination"

/-- A `risk_factor` string that the remediation table resolves to the
disinfection bullet: it contains "coliform" and is not captured by the earlier
"pH" or "oxygen" branches of the elif chain. -/
def matchesColiform (f : String) : Bool :=
  !(hasSub f "pH") && !(hasSub f "oxygen") && hasSub f "coliform"

/-! ### Concrete fixtures used by witnesses and counterexamples -/

/-- Scenario A water sample of the repository's test script (good quality). -/
def sampleGoodWater : WaterParams := ⟨7.2, 7.5, 2.0, 5.0, 15.0, 80.0, 24.0⟩

/-- A sample whose fecal and total coliform both breach their soft limits. -/
def sampleColiformWater : WaterParams := ⟨7.0, 5.0, 3.0, 5.0, 800.0, 3500.0, 25.0⟩

/-- A sample whose BOD is 4: above the standards' soft maximum of 3 but not
above the 5 hard-coded in the correlation loop. -/
def sampleBodWater : WaterParams := ⟨7.0, 6.0, 4.0, 5.0, 10.0, 100.0, 25.0⟩

/-- A prediction dict naming Dysentery, whose critical parameters include bod. -/
def sampleDysenteryPrediction : DiseasePrediction :=
  ⟨40, "Medium", "Dysentery", 65, "Rule_Based"⟩

/-- A well-formed outbreak dict (25 cases, state 1, July). -/
def sampleOutbreak : OutbreakData := ⟨some 25, some 1, some 7⟩

/-- An invalid outbreak dict: negative case count, missing state, month 13. -/
def invalidOutbreak : OutbreakData := ⟨some (-5), none, some 13⟩

/-! ## Supporting lemmas -/

/-- A conditional bonus of a non-negative amount is non-negative. -/
lemma bonus_nonneg {c : Prop} [Decidable c] {v : ℚ} (hv : 0 ≤ v) : 0 ≤ bonus c v := by
  unfold bonus; split
  · exact hv
  · exact le_refl 0

/-- The base scores of the seven disease profiles already sum to 1 and every
conditional bonus is non-negative, so the total disease score is at least 1 on
every input: the zero-total case of the spec is unreachable. -/
lemma one_le_totalScore (deaths : ℚ) (month season : ℤ) (prevCases : ℚ) :
    1 ≤ totalScore deaths month season prevCases := by
  unfold totalScore diseaseScores
  simp only [List.map_cons, List.map_nil, List.sum_cons, List.sum_nil, add_zero]
  have h1 : (0:ℚ) ≤ bonus (season = 2) 0.2 := bonus_nonneg (by norm_num)
  have h2 : (0:ℚ) ≤ bonus (month ∈ ([6, 7, 8, 9] : List ℤ)) 0.15 := bonus_nonneg (by norm_num)
  have h3 : (0:ℚ) ≤ bonus (deaths < 5) 0.1 := bonus_nonneg (by norm_num)
  have h4 : (0:ℚ) ≤ bonus (mortalityRate deaths prevCases > 0.1) 0.3 := bonus_nonneg (by norm_num)
  have h5 : (0:ℚ) ≤ bonus (season = 2) 0.25 := bonus_nonneg (by norm_num)
  have h6 : (0:ℚ) ≤ bonus (month ∈ ([7, 8, 9] : List ℤ)) 0.2 := bonus_nonneg (by norm_num)
  have h7 : (0:ℚ) ≤ bonus (deaths > 5) 0.15 := bonus_nonneg (by norm_num)
  have h8 : (0:ℚ) ≤ bonus (mortalityRate deaths prevCases > 0.05 ∧ mortalityRate deaths prevCases < 0.15) 0.2 := bonus_nonneg (by norm_num)
  have h9 : (0:ℚ) ≤ bonus (deaths ≥ 3 ∧ deaths ≤ 8) 0.15 := bonus_nonneg (by norm_num)
  have h10 : (0:ℚ) ≤ bonus (season ∈ ([1, 3] : List ℤ)) 0.1 := bonus_nonneg (by norm_num)
  have h11 : (0:ℚ) ≤ bonus (season = 2) 0.15 := bonus_nonneg (by norm_num)
  have h12 : (0:ℚ) ≤ bonus (deaths < 8) 0.1 := bonus_nonneg (by norm_num)
  have h13 : (0:ℚ) ≤ bonus (month ∈ ([6, 7, 8] : List ℤ)) 0.1 := bonus_nonneg (by norm_num)
  have h14 : (0:ℚ) ≤ bonus (mortalityRate deaths prevCases < 0.05) 0.2 := bonus_nonneg (by norm_num)
  have h15 : (0:ℚ) ≤ bonus (deaths ≤ 3) 0.15 := bonus_nonneg (by norm_num)
  have h16 : (0:ℚ) ≤ bonus (season = 4) 0.1 := bonus_nonneg (by norm_num)
  have h17 : (0:ℚ) ≤ bonus (deaths ≤ 2) 0.2 := bonus_nonneg (by norm_num)
  have h18 : (0:ℚ) ≤ bonus (mortalityRate deaths prevCases < 0.03) 0.15 := bonus_nonneg (by norm_num)
  have h19 : (0:ℚ) ≤ bonus (month ∈ ([4, 5, 10, 11] : List ℤ)) 0.1 := bonus_nonneg (by norm_num)
  have h20 : (0:ℚ) ≤ bonus (deaths ≤ 4) 0.15 := bonus_nonneg (by norm_num)
  have h21 : (0:ℚ) ≤ bonus (season ∈ ([1, 2] : List ℤ)) 0.1 := bonus_nonneg (by norm_num)
  linarith

/-- Normalising a list of scores by their sum and scaling by 100 yields values
summing to exactly 100, for any non-zero sum. -/
lemma sum_map_div_mul (l : List (String × ℚ)) (S : ℚ) (hS : S ≠ 0)
    (h : (l.map Prod.snd).sum = S) :
    ((l.map (fun p => (p.1, p.2 / S * 100))).map Prod.snd).sum = 100 := by
  have key : ∀ l2 : List (String × ℚ),
      ((l2.map (fun p => (p.1, p.2 / S * 100))).map Prod.snd).sum
        = (l2.map Prod.snd).sum / S * 100 := by
    intro l2
    induction l2 with
    | nil => simp
    | cons a t ih =>
      simp only [List.map_cons, List.sum_cons, ih]
      ring
  rw [key, h]
  field_simp

/-- Closed form of the critical-parameter loop's score: one bonus per critical
parameter of the disease that crosses the loop's hard-coded threshold
(fecal 50, total 500, nitrate 10, bod 5). -/
lemma critParamsResult_fst (w : WaterParams) (d : String) :
    (critParamsResult w (criticalParameters d)).1 =
      bonus ("fecal_coliform" ∈ criticalParameters d ∧ w.fecal_coliform > 50) 25
      + bonus ("total_coliform" ∈ criticalParameters d ∧ w.total_coliform > 500) 20
      + bonus ("nitrate_n" ∈ criticalParameters d ∧ w.nitrate_n > 10) 15
      + bonus ("bod" ∈ criticalParameters d ∧ w.bod > 5) 15 := by
  unfold criticalParameters
  split_ifs
  all_goals simp [critParamsResult, critParamScore, waterValue, bonus, List.foldl]
  all_goals try simp [apply_ite (Prod.fst : ℚ × List String → ℚ)]

/-- Python `int()` agrees with the floor on non-negative arguments. -/
lemma pyInt_of_nonneg {q : ℚ} (h : 0 ≤ q) : pyInt q = ⌊q⌋ := by
  unfold pyInt; rw [if_pos h]

/-- Truncation separates a value from 5/2 times itself as soon as the value is
at least 0.408, the smallest first-month forecast of a single case. -/
lemma pyInt_lt_pyInt_of_ratio {x : ℚ} (hx : 51/125 ≤ x) :
    pyInt x < pyInt (5/2 * x) := by
  have hx0 : (0:ℚ) ≤ x := le_trans (by norm_num) hx
  have hy0 : (0:ℚ) ≤ 5/2 * x := by nlinarith
  rw [pyInt_of_nonneg hx0, pyInt_of_nonneg hy0]
  rcases le_or_lt 1 x with h1 | h1
  · have hfl : (⌊x⌋ : ℚ) ≤ x := Int.floor_le x
    have h2 : ⌊x⌋ + 1 ≤ ⌊5/2 * x⌋ := by
      apply Int.le_floor.mpr
      push_cast
      nlinarith
    omega
  · have hfx : ⌊x⌋ = 0 := by
      rw [Int.floor_eq_zero_iff]
      exact ⟨hx0, h1⟩
    have h2 : (1:ℤ) ≤ ⌊5/2 * x⌋ := by
      apply Int.le_floor.mpr
      push_cast
      nlinarith
    omega

/-- The water multiplier only ever takes the three table values. -/
lemma water_risk_multiplier_cases (q : ℚ) :
    water_risk_multiplier q = 1.5 ∨ water_risk_multiplier q = 1.2 ∨
      water_risk_multiplier q = 0.8 := by
  unfold water_risk_multiplier
  split_ifs <;> simp

/-- The urgent bullets never contain the disinfection bullet. -/
lemma count_urgent (ca : CorrelationAnalysis) :
    (urgent_recommendations ca).count disinfectionBullet = 0 := by
  unfold urgent_recommendations
  split <;> decide

/-- The disease bullets never contain the disinfection bullet. -/
lemma count_disease (d : String) :
    (disease_recommendations d).count disinfectionBullet = 0 := by
  unfold disease_recommendations
  split_ifs <;> decide

/-- The WQI-band bullets never contain the disinfection bullet. -/
lemma count_wqi (q : ℚ) :
    (wqi_recommendations q).count disinfectionBullet = 0 := by
  unfold wqi_recommendations
  split_ifs <;> decide

/-- The prevention bullets never contain the disinfection bullet. -/
lemma count_prevention :
    prevention_recommendations.count disinfectionBullet = 0 := by decide

/-- The monitoring bullets never contain the disinfection bullet. -/
lemma count_monitoring (s : String) :
    (monitoring_recommendations s).count disinfectionBullet = 0 := by
  unfold monitoring_recommendations
  split <;> decide

/-- One risk factor contributes the disinfection bullet exactly when the
"coliform" branch of the elif chain captures it. -/
lemma count_remediation (f : String) :
    (remediationBullets f).count disinfectionBullet
      = if matchesColiform f then 1 else 0 := by
  unfold remediationBullets matchesColiform
  cases hp : hasSub f "pH" <;> cases ho : hasSub f "oxygen" <;>
    cases hc : hasSub f "coliform" <;> cases hn : hasSub f "nitrate" <;>
    cases hb : hasSub f "BOD" <;> simp <;> decide

/-- The remediation section contributes one disinfection bullet per matching
risk factor. -/
lemma count_flatten_remediation (fs : List String) :
    ((fs.map remediationBullets).flatten).count disinfectionBullet
      = (fs.filter matchesColiform).length := by
  induction fs with
  | nil => rfl
  | cons f t ih =>
    simp only [List.map_cons, List.flatten_cons, List.count_append, ih,
      List.filter_cons, count_remediation]
    cases hm : matchesColiform f <;> simp [hm] <;> omega

/-- pH sub-score never exceeds 100. -/
lemma ph_score_le (w : WaterParams) : ph_score w ≤ 100 := by
  unfold ph_score
  split
  · norm_num
  · exact min_le_right _ _

/-- Every sub-score enters the sum capped at 100 and the weights sum to 1, so
the WQI never exceeds 100 (for any sample whatsoever). -/
lemma calculate_wqi_le_100 (w : WaterParams) : calculate_wqi w ≤ 100 := by
  have h1 := ph_score_le w
  have h2 : min (do_score w) 100 ≤ 100 := min_le_right _ _
  have h3 : min (bod_score w) 100 ≤ 100 := min_le_right _ _
  have h4 : min (nitrate_score w) 100 ≤ 100 := min_le_right _ _
  have h5 : min (fc_score w) 100 ≤ 100 := min_le_right _ _
  have h6 : min (tc_score w) 100 ≤ 100 := min_le_right _ _
  unfold calculate_wqi
  linarith

/-- A WQI at most 100 never lands in the "Very Poor" band. -/
lemma quality_category_of_le {q : ℚ} (h : q ≤ 100) :
    quality_category_of q ≠ "Very Poor" := by
  unfold quality_category_of
  split_ifs <;> first | decide | linarith

/-- A WQI at most 100 never lands in the "Very High" band. -/
lemma quality_risk_of_le {q : ℚ} (h : q ≤ 100) :
    quality_risk_of q ≠ "Very High" := by
  unfold quality_risk_of
  split_ifs <;> first | decide | linarith

/-- The seasonal table holds an entry for every month 1..12. -/
lemma seasonalMultipliers_isSome {m : ℤ} (h1 : 1 ≤ m) (h2 : m ≤ 12) :
    (seasonalMultipliers m).isSome = true := by
  unfold seasonalMultipliers
  interval_cases m <;> rfl

/-! ## Claim theorems -/

/-- C1, counterexample: two pipeline runs on identical outbreak and water
inputs, taken at two distinct clock readings, return results that are not
bit-identical — the returned dict stores the wall-clock reading in its
`analysis_timestamp` field, so the pipeline is clock-dependent as a whole. -/
theorem c1_counterexample :
    ( analyze_integrated_scenario sampleOutbreak sampleGoodWater
        "2025-09-05 12:00:00").analysis_timestamp = "2025-09-05 12:00:00" ∧
    ( analyze_integrated_scenario sampleOutbreak sampleGoodWater
        "2025-09-05 12:00:01").analysis_timestamp = "2025-09-05 12:00:01" ∧
    analyze_integrated_scenario sampleOutbreak sampleGoodWater "2025-09-05 12:00:00"
      ≠ analyze_integrated_scenario sampleOutbreak sampleGoodWater "2025-09-05 12:00:01" := by
  refine ⟨rfl, rfl, fun hcontra => ?_⟩
  have h2 : ("2025-09-05 12:00:00" : String) = "2025-09-05 12:00:01" :=
    congrArg RiskAssessmentResult.analysis_timestamp hcontra
  exact absurd h2 (by decide)

/-- C1, amended: for identical `OutbreakReport`+`WaterSample` inputs the
pipeline is deterministic in every field except `analysis_timestamp`: erasing
that single clock-derived field makes two runs taken at any two clock readings
bit-identical; no other randomness or clock dependence exists in the core. -/
theorem c1_deterministic_modulo_timestamp (o : OutbreakData) (w : WaterParams)
    (t1 t2 : String) :
    stripTimestamp ( analyze_integrated_scenario o w t1)
      = stripTimestamp ( analyze_integrated_scenario o w t2) := rfl

/-- C2, counterexample: on an invalid input — negative case count (-5), a
missing `Northeast_State` field and month 13 outside 1..12 — the pipeline does
not fail with any `InvalidInput` error: it returns a complete `RiskAssessment`
with a computed combined risk score and alert level. -/
theorem c2_counterexample :
    ( analyze_integrated_scenario invalidOutbreak sampleGoodWater
        "2025-09-05 12:00:00").alert_level = "🟢 LOW ALERT" ∧
    ( analyze_integrated_scenario invalidOutbreak sampleGoodWater
        "2025-09-05 12:00:00").risk_scores.combined_risk = 27/25 := by
  constructor
  · decide
  · decide

/-- C2, amended: the pipeline performs no input validation at all. Missing
outbreak fields are silently defaulted (`No_of_Cases` to 0, `Northeast_State`
to 1, `Start_of_Outbreak_Month` to 7): running on an empty outbreak dict is
identical to running on the defaulted one, and a complete `RiskAssessment` is
returned for every input (the embedded pipeline is a total function). -/
theorem c2_no_validation_defaults (w : WaterParams) (t : String) :
    analyze_integrated_scenario ⟨none, none, none⟩ w t
      = analyze_integrated_scenario ⟨some 0, some 1, some 7⟩ w t := rfl

/-- C3, counterexample: at deaths 0, month 1, season 4, no prior cases, the
total disease score is positive (2.15) but the `all_probabilities` values the
predictor returns — each rounded to one decimal — sum to 100.1, which misses
100 by 0.1, far beyond the claimed 1e-6 tolerance. -/
theorem c3_counterexample :
    0 < totalScore 0 1 4 0 ∧
    ((predictDiseaseType 0 1 4 0).all_probabilities.map Prod.snd).sum = 1001/10 ∧
    ¬ |((predictDiseaseType 0 1 4 0).all_probabilities.map Prod.snd).sum - 100|
        ≤ 1/1000000 := by
  decide

/-- C3, amended: for every input the total disease score is strictly positive
and the per-disease probabilities sum to exactly 100 before the final one
decimal rounding; it is only the rounded `all_probabilities` map that can
deviate from 100 by a few tenths. -/
theorem c3_unrounded_probabilities_sum_100 (deaths : ℚ) (month season : ℤ)
    (prevCases : ℚ) :
    0 < totalScore deaths month season prevCases ∧
    ((diseaseProbabilities deaths month season prevCases).map Prod.snd).sum = 100 := by
  have h1 := one_le_totalScore deaths month season prevCases
  have hpos : 0 < totalScore deaths month season prevCases := lt_of_lt_of_le one_pos h1
  refine ⟨hpos, ?_⟩
  unfold diseaseProbabilities
  exact sum_map_div_mul _ _ (ne_of_gt hpos) rfl

/-- C5, counterexample: on a sample whose fecal and total coliform both breach
their soft limits, the pipeline's recommendation list contains the disinfection
bullet twice — one copy per matching risk factor — so the list is not
duplicate-free. -/
theorem c5_counterexample :
    ( analyze_integrated_scenario sampleOutbreak sampleColiformWater
        "2025-09-05 12:00:00").recommendations.count disinfectionBullet = 2 ∧
    ¬ ( analyze_integrated_scenario sampleOutbreak sampleColiformWater
        "2025-09-05 12:00:00").recommendations.Nodup := by
  constructor
  · decide
  · decide

/-- C5, amended: the recommendation composer appends the disinfection
remediation bullet once per `risk_factor` string matching the coliform rule —
not once per distinct rule — so the bullet occurs as many times as there are
matching risk factors and the output is not deduplicated. -/
theorem c5_disinfection_once_per_matching_factor (dp : DiseasePrediction)
    (wa : WaterAssessment) (ca : CorrelationAnalysis) :
    (generate_integrated_recommendations dp wa ca).count disinfectionBullet
      = (wa.risk_factors.filter matchesColiform).length := by
  unfold generate_integrated_recommendations
  simp only [List.count_append, count_urgent, count_disease, count_wqi,
    count_prevention, count_monitoring, count_flatten_remediation]
  omega

/-- C6, counterexample: with zero cases and identical water parameters, the
first forecast point of a July run equals that of a January run (both predict
0 cases), so the July value does not strictly exceed the January one for every
non-negative case count. -/
theorem c6_counterexample :
    ((predict_future_outbreak_trend ⟨some 0, some 1, some 1⟩ sampleGoodWater 3).map
        (fun p => p.predicted_cases)).headI
      = ((predict_future_outbreak_trend ⟨some 0, some 1, some 7⟩ sampleGoodWater 3).map
        (fun p => p.predicted_cases)).headI ∧
    ((predict_future_outbreak_trend ⟨some 0, some 1, some 7⟩ sampleGoodWater 3).map
        (fun p => p.predicted_cases)).headI = 0 := by
  constructor
  · decide
  · decide

/-- C6, amended: for every strictly positive case count and every water sample,
the forecaster's first point (offset 1) predicts strictly more cases when the
current month is July than when it is January, the seasonal multipliers of the
projected months August (1.5) and February (0.6) being 2.5 apart. -/
theorem c6_july_first_forecast_exceeds_january (c : ℤ) (w : WaterParams)
    (hc : 1 ≤ c) :
    ((predict_future_outbreak_trend ⟨some c, some 1, some 1⟩ w 3).map
        (fun p => p.predicted_cases)).headI
      < ((predict_future_outbreak_trend ⟨some c, some 1, some 7⟩ w 3).map
        (fun p => p.predicted_cases)).headI := by
  have hJan : ((predict_future_outbreak_trend ⟨some c, some 1, some 1⟩ w 3).map
      (fun p => p.predicted_cases)).headI
      = pyInt ((c : ℚ) * 0.85 ^ (1:ℕ) * ((seasonalMultipliers (futureMonth 1 1)).getD 0)
          * water_risk_multiplier (calculate_wqi w)) := rfl
  have hJul : ((predict_future_outbreak_trend ⟨some c, some 1, some 7⟩ w 3).map
      (fun p => p.predicted_cases)).headI
      = pyInt ((c : ℚ) * 0.85 ^ (1:ℕ) * ((seasonalMultipliers (futureMonth 7 1)).getD 0)
          * water_risk_multiplier (calculate_wqi w)) := rfl
  have hm1 : futureMonth 1 1 = 2 := by decide
  have hm7 : futureMonth 7 1 = 8 := by decide
  have hs1 : (seasonalMultipliers 2).getD 0 = 0.6 := by decide
  have hs7 : (seasonalMultipliers 8).getD 0 = 1.5 := by decide
  rw [hJan, hJul, hm1, hm7, hs1, hs7]
  have hr : (c : ℚ) * 0.85 ^ (1:ℕ) * 1.5 * water_risk_multiplier (calculate_wqi w)
      = 5/2 * ((c : ℚ) * 0.85 ^ (1:ℕ) * 0.6 * water_risk_multiplier (calculate_wqi w)) := by
    ring
  rw [hr]
  apply pyInt_lt_pyInt_of_ratio
  have hc1 : (1:ℚ) ≤ (c : ℚ) := by exact_mod_cast hc
  rcases water_risk_multiplier_cases (calculate_wqi w) with h | h | h <;> rw [h] <;> nlinarith

/-- C6, witness for the amended theorem at 10 cases and the Scenario A sample:
the January run's first point predicts fewer cases than the July run's. -/
theorem c6_witness :
    ((predict_future_outbreak_trend ⟨some 10, some 1, some 1⟩ sampleGoodWater 3).map
        (fun p => p.predicted_cases)).headI
      < ((predict_future_outbreak_trend ⟨some 10, some 1, some 7⟩ sampleGoodWater 3).map
        (fun p => p.predicted_cases)).headI :=
  c6_july_first_forecast_exceeds_january 10 sampleGoodWater (by norm_num)

/-- C7, counterexample: bod is a critical water parameter of Dysentery, a
sample's BOD value 4 breaches the water-quality standards' soft threshold 3,
yet the correlation score is 0 — no +15 bonus is added, because the
correlation loop hard-codes `bod > 5` instead of the standards' 3. -/
theorem c7_counterexample :
    ("bod" ∈ criticalParameters sampleDysenteryPrediction.most_likely_disease) ∧
    sampleBodWater.bod > 3 ∧
    ( correlate_disease_water_quality sampleDysenteryPrediction
        (assess_water_quality_risk sampleBodWater) sampleBodWater).correlation_score
      = 0 := by
  refine ⟨by decide, by norm_num [sampleBodWater], ?_⟩
  decide

/-- C7, amended: for every predicted disease in the correlation table and every
sample, the correlation score is exactly the quality-risk bonus plus one
parameter-specific bonus per critical parameter breaching the loop's own
thresholds — fecal coliform > 50 adds +25, total coliform > 500 adds +20,
nitrate > 10 adds +15, and BOD adds +15 only above 5 (not the standards' soft
threshold 3) — plus the violation bonuses, clamped to 100. -/
theorem c7_param_bonus_characterization (dp : DiseasePrediction)
    (wa : WaterAssessment) (w : WaterParams)
    (hd : dp.most_likely_disease ∈ knownDiseases) :
    ( correlate_disease_water_quality dp wa w).correlation_score =
      min (bonus (wa.quality_risk = "High" ∨ wa.quality_risk = "Very High") 30
        + (bonus ("fecal_coliform" ∈ criticalParameters dp.most_likely_disease
              ∧ w.fecal_coliform > 50) 25
          + bonus ("total_coliform" ∈ criticalParameters dp.most_likely_disease
              ∧ w.total_coliform > 500) 20
          + bonus ("nitrate_n" ∈ criticalParameters dp.most_likely_disease
              ∧ w.nitrate_n > 10) 15
          + bonus ("bod" ∈ criticalParameters dp.most_likely_disease
              ∧ w.bod > 5) 15)
        + (violationsResult wa.critical_violations).1) 100 := by
  have hproj : ( correlate_disease_water_quality dp wa w).correlation_score
      = min (bonus (wa.quality_risk = "High" ∨ wa.quality_risk = "Very High") 30
          + (critParamsResult w (criticalParameters dp.most_likely_disease)).1
          + (violationsResult wa.critical_violations).1) 100 := rfl
  rw [hproj, critParamsResult_fst]

/-- C7, witness for the amended theorem at the Dysentery prediction and the
BOD-4 sample. -/
theorem c7_witness :
    sampleDysenteryPrediction.most_likely_disease ∈ knownDiseases ∧
    ( correlate_disease_water_quality sampleDysenteryPrediction
        (assess_water_quality_risk sampleBodWater) sampleBodWater).correlation_score =
      min (bonus ((assess_water_quality_risk sampleBodWater).quality_risk = "High"
            ∨ (assess_water_quality_risk sampleBodWater).quality_risk = "Very High") 30
        + (bonus ("fecal_coliform" ∈ criticalParameters sampleDysenteryPrediction.most_likely_disease
              ∧ sampleBodWater.fecal_coliform > 50) 25
          + bonus ("total_coliform" ∈ criticalParameters sampleDysenteryPrediction.most_likely_disease
              ∧ sampleBodWater.total_coliform > 500) 20
          + bonus ("nitrate_n" ∈ criticalParameters sampleDysenteryPrediction.most_likely_disease
              ∧ sampleBodWater.nitrate_n > 10) 15
          + bonus ("bod" ∈ criticalParameters sampleDysenteryPrediction.most_likely_disease
              ∧ sampleBodWater.bod > 5) 15)
        + (violationsResult
            (assess_water_quality_risk sampleBodWater).critical_violations).1) 100 :=
  ⟨by decide, c7_param_bonus_characterization sampleDysenteryPrediction
      (assess_water_quality_risk sampleBodWater) sampleBodWater (by decide)⟩

/-- C8: the pipeline's combined risk score is exactly the blend
`0.4*disease_risk + 0.3*wqi + 0.3*correlation_score` of its own three
sub-scores, and the blend is monotone non-decreasing in each argument when the
other two are held fixed. -/
theorem c8_combined_risk_monotone (o : OutbreakData) (wp : WaterParams)
    (t : String) (d w c d2 w2 c2 : ℚ) :
    ( analyze_integrated_scenario o wp t).risk_scores.combined_risk
      = combined_risk_formula ( analyze_integrated_scenario o wp t).risk_scores.disease_risk
          ( analyze_integrated_scenario o wp t).risk_scores.water_risk
          ( analyze_integrated_scenario o wp t).risk_scores.correlation_risk ∧
    combined_risk_formula d w c = 0.4 * d + 0.3 * w + 0.3 * c ∧
    (d ≤ d2 → combined_risk_formula d w c ≤ combined_risk_formula d2 w c) ∧
    (w ≤ w2 → combined_risk_formula d w c ≤ combined_risk_formula d w2 c) ∧
    (c ≤ c2 → combined_risk_formula d w c ≤ combined_risk_formula d w c2) := by
  refine ⟨rfl, by unfold combined_risk_formula; ring, ?_, ?_, ?_⟩ <;>
    intro hle <;> unfold combined_risk_formula <;> nlinarith

/-- C8, witness: the monotonicity in the disease score at concrete inputs. -/
theorem c8_witness :
    combined_risk_formula 10 20 30 ≤ combined_risk_formula 50 20 30 :=
  (c8_combined_risk_monotone sampleOutbreak sampleGoodWater "2025-09-05 12:00:00"
    10 20 30 50 20 30).2.2.1 (by norm_num)

/-- C9: for a sample with non-negative parameter values the WQI is at most 100
(each sub-score is capped at 100 and the six weights sum to 1), so the
assessor never returns the "Very Poor" category nor the "Very High" risk. -/
theorem c9_wqi_bounded (w : WaterParams)
    (h : 0 ≤ w.ph ∧ 0 ≤ w.dissolved_oxygen ∧ 0 ≤ w.bod ∧ 0 ≤ w.nitrate_n
      ∧ 0 ≤ w.fecal_coliform ∧ 0 ≤ w.total_coliform) :
    calculate_wqi w ≤ 100 ∧
    (assess_water_quality_risk w).quality_category ≠ "Very Poor" ∧
    (assess_water_quality_risk w).quality_risk ≠ "Very High" := by
  refine ⟨calculate_wqi_le_100 w, ?_, ?_⟩
  · exact quality_category_of_le (calculate_wqi_le_100 w)
  · exact quality_risk_of_le (calculate_wqi_le_100 w)

/-- C9, witness at the Scenario A sample. -/
theorem c9_witness :
    (0 ≤ sampleGoodWater.ph ∧ 0 ≤ sampleGoodWater.dissolved_oxygen
      ∧ 0 ≤ sampleGoodWater.bod ∧ 0 ≤ sampleGoodWater.nitrate_n
      ∧ 0 ≤ sampleGoodWater.fecal_coliform ∧ 0 ≤ sampleGoodWater.total_coliform) ∧
    (calculate_wqi sampleGoodWater ≤ 100 ∧
      (assess_water_quality_risk sampleGoodWater).quality_category ≠ "Very Poor" ∧
      (assess_water_quality_risk sampleGoodWater).quality_risk ≠ "Very High") :=
  ⟨by norm_num [sampleGoodWater],
    c9_wqi_bounded sampleGoodWater (by norm_num [sampleGoodWater])⟩

/-- C10: for every integer current month — inside or outside 1..12 — and every
forecast offset of at least one month, the projected month lies in 1..12 and
the seasonal-multiplier table lookup succeeds. -/
theorem c10_future_month_total (m : ℤ) (k : ℕ) (hk : 1 ≤ k) :
    (1 ≤ futureMonth m k ∧ futureMonth m k ≤ 12) ∧
    (seasonalMultipliers (futureMonth m k)).isSome = true := by
  have hlo : 0 ≤ (m + k - 1) % 12 := Int.emod_nonneg _ (by norm_num)
  have hhi : (m + k - 1) % 12 < 12 := Int.emod_lt_of_pos _ (by norm_num)
  have h1 : 1 ≤ futureMonth m k := by unfold futureMonth; omega
  have h2 : futureMonth m k ≤ 12 := by unfold futureMonth; omega
  exact ⟨⟨h1, h2⟩, seasonalMultipliers_isSome h1 h2⟩

/-- C10, witness at the out-of-range month 13 and offset 1. -/
theorem c10_witness :
    (1 ≤ futureMonth 13 1 ∧ futureMonth 13 1 ≤ 12) ∧
    (seasonalMultipliers (futureMonth 13 1)).isSome = true :=
  c10_future_month_total 13 1 (by norm_num)

end Nirogya
